import Mathlib

/-!
Verification development for the OpenGL Classroom Simulation engine
(`src/src/main.cpp`, `src/common/controls.cpp`).

The engine's pure logic is shallowly embedded here:
* real-number constants written as exact decimals become rationals (`ℚ`),
  except where trigonometry is genuinely involved (`glm::rotate`), which is
  modelled over `ℝ`;
* GLM matrices are modelled as `Matrix (Fin 4) (Fin 4) _` in the usual
  mathematical (row, column) convention; a `glm::mat4` stores column-major,
  so `glm` entry `M[c][r]` is mathematical entry `(r, c)`;
* the two render passes of `ClassroomSimulator::MainLoop` are modelled as
  pure functions that return the trace of draw calls they issue, with the
  GL state (blend / depth-mask / material flags) threaded explicitly;
* GL object creation/deletion is modelled against the OpenGL semantics of
  `glGenBuffers`/`glDeleteBuffers` (and the texture analogues): deleting
  the name 0 or a name that does not correspond to a live object is
  silently ignored.
-/

namespace Classroom

/-- A 3-component vector, the embedding of `glm::vec3`. -/
structure V3 (α : Type) where
  x : α
  y : α
  z : α
deriving DecidableEq

instance [Add α] : Add (V3 α) where
  add a b := ⟨a.x + b.x, a.y + b.y, a.z + b.z⟩

/-- 4×4 matrices over `ℚ`, the embedding of `glm::mat4` for the parts of the
engine whose arithmetic is exact (constants, matrix products kept symbolic). -/
abbrev Mat4Q := Matrix (Fin 4) (Fin 4) ℚ

/-- The depth-bias matrix built inline in `ClassroomSimulator::MainLoop`
(`main.cpp:497`):
`glm::mat4 biasMatrix(0.5,0,0,0, 0,0.5,0,0, 0,0,0.5,0, 0.5,0.5,0.5,1)`.
The 16 scalars fill the `glm` matrix column-major, so in mathematical (row,
column) form the matrix has `0.5` on the first three diagonal entries, the
translation column `(0.5, 0.5, 0.5)`, and a last row `(0,0,0,1)`. -/
def biasMatrixQ : Mat4Q :=
  !![1/2, 0, 0, 1/2;
     0, 1/2, 0, 1/2;
     0, 0, 1/2, 1/2;
     0, 0, 0, 1]

/-- Application of `biasMatrixQ` to a clip-space point `(x, y, z, 1)`
(`glm` matrix-vector product), keeping the first three components. -/
def applyBias (p : V3 ℚ) : V3 ℚ :=
  let w : Fin 4 → ℚ := biasMatrixQ.mulVec ![p.x, p.y, p.z, 1]
  ⟨w 0, w 1, w 2⟩

theorem applyBias_eq (x y z : ℚ) :
    applyBias ⟨x, y, z⟩ = ⟨x / 2 + 1 / 2, y / 2 + 1 / 2, z / 2 + 1 / 2⟩ := by
  simp [applyBias, biasMatrixQ, Matrix.mulVec, Matrix.dotProduct,
    Fin.sum_univ_four]
  norm_num
  constructor
  · ring
  constructor
  · ring
  · ring

/-- C3: the bias matrix used by the shadow pass maps every point of the
clip-space cube `[-1,1]³` into the texture-space cube `[0,1]³`; in
particular it maps `(-1,-1,-1)` to `(0,0,0)`, `(1,1,1)` to `(1,1,1)`, and
`(0,0,0)` to `(0.5,0.5,0.5)`. -/
theorem bias_matrix_maps_clip_to_texture :
    (∀ x y z : ℚ, -1 ≤ x → x ≤ 1 → -1 ≤ y → y ≤ 1 → -1 ≤ z → z ≤ 1 →
      0 ≤ (applyBias ⟨x, y, z⟩).x ∧ (applyBias ⟨x, y, z⟩).x ≤ 1 ∧
      0 ≤ (applyBias ⟨x, y, z⟩).y ∧ (applyBias ⟨x, y, z⟩).y ≤ 1 ∧
      0 ≤ (applyBias ⟨x, y, z⟩).z ∧ (applyBias ⟨x, y, z⟩).z ≤ 1) ∧
    applyBias ⟨-1, -1, -1⟩ = ⟨0, 0, 0⟩ ∧
    applyBias ⟨1, 1, 1⟩ = ⟨1, 1, 1⟩ ∧
    applyBias ⟨0, 0, 0⟩ = ⟨1/2, 1/2, 1/2⟩ := by
  refine ⟨fun x y z hx1 hx2 hy1 hy2 hz1 hz2 => ?_, ?_, ?_, ?_⟩
  · rw [applyBias_eq]
    refine ⟨by linarith, by linarith, by linarith, by linarith, by linarith,
      by linarith⟩
  · rw [applyBias_eq]; norm_num
  · rw [applyBias_eq]; norm_num
  · rw [applyBias_eq]; norm_num

/-- Witness for C3: the interval-mapping part of
`bias_matrix_maps_clip_to_texture` applied at the concrete clip point
`(1/4, -1/2, 1)`. -/
theorem bias_matrix_maps_clip_to_texture_witness :
    0 ≤ (applyBias ⟨1/4, -1/2, 1⟩).x ∧ (applyBias ⟨1/4, -1/2, 1⟩).x ≤ 1 ∧
    0 ≤ (applyBias ⟨1/4, -1/2, 1⟩).y ∧ (applyBias ⟨1/4, -1/2, 1⟩).y ≤ 1 ∧
    0 ≤ (applyBias ⟨1/4, -1/2, 1⟩).z ∧ (applyBias ⟨1/4, -1/2, 1⟩).z ≤ 1 :=
  bias_matrix_maps_clip_to_texture.1 (1/4) (-1/2) 1 (by norm_num)
    (by norm_num) (by norm_num) (by norm_num) (by norm_num) (by norm_num)

/-! ### Camera controller (`src/common/controls.cpp`) and window init
(`ClassroomSimulator::InitSystem`, `main.cpp:265`). -/

/-- `mouseSpeed = 0.005f` (`controls.cpp:33`). -/
def mouseSpeed : ℚ := 5 / 1000

/-- The orientation-relevant state of the camera controller: the two look
angles (`horizontalAngle`, `verticalAngle`, `controls.cpp:26-28`) together
with the OS cursor position that `glfwGetCursorPos` will report on the next
frame (the engine window never moves the cursor except through
`glfwSetCursorPos`). -/
structure CamState where
  hAngle : ℚ
  vAngle : ℚ
  cursorX : ℚ
  cursorY : ℚ
deriving DecidableEq

/-- One frame of the orientation update in `computeMatricesFromInputs`
(`controls.cpp:61-70`), for a frame on which the user does not move the
mouse: the cursor position is read, the cursor is reset to
`(1024/2, 768/2) = (512, 384)`, and the angles change by
`mouseSpeed * (512 - xpos)` and `mouseSpeed * (384 - ypos)`. -/
def camOrientationStep (s : CamState) : CamState :=
  { hAngle := s.hAngle + mouseSpeed * (512 - s.cursorX)
    vAngle := s.vAngle + mouseSpeed * (384 - s.cursorY)
    cursorX := 512
    cursorY := 384 }

/-- The camera state right after `ClassroomSimulator::InitSystem`:
the initial angles from `controls.cpp:26-28` and the cursor centred by
`glfwSetCursorPos(window, WINDOW_WIDTH / 2, WINDOW_HEIGHT / 2)`
(`main.cpp:265`) with `WINDOW_WIDTH = 1536`, `WINDOW_HEIGHT = 1152`. -/
def camInitState : CamState :=
  { hAngle := 59 / 100
    vAngle := -48 / 100
    cursorX := 1536 / 2
    cursorY := 1152 / 2 }

/-- C10: the camera controller resets the cursor to `(512, 384)` every frame
and changes the look angles by `mouseSpeed * (512 - xpos)` and
`mouseSpeed * (384 - ypos)`; because initialization centres the cursor at
the window centre `(768, 576)` of the 1536×1152 window, the first frame
shifts the look angles by `mouseSpeed * (-256)` and `mouseSpeed * (-192)`
even though the mouse has not moved, and later motionless frames shift them
by zero. -/
theorem camera_first_frame_shift :
    (∀ s : CamState, (camOrientationStep s).cursorX = 512 ∧
      (camOrientationStep s).cursorY = 384 ∧
      (camOrientationStep s).hAngle =
        s.hAngle + mouseSpeed * (512 - s.cursorX) ∧
      (camOrientationStep s).vAngle =
        s.vAngle + mouseSpeed * (384 - s.cursorY)) ∧
    (camOrientationStep camInitState).hAngle =
      camInitState.hAngle + mouseSpeed * (-256) ∧
    (camOrientationStep camInitState).vAngle =
      camInitState.vAngle + mouseSpeed * (-192) ∧
    camOrientationStep (camOrientationStep camInitState) =
      { camOrientationStep camInitState with
          hAngle := (camOrientationStep camInitState).hAngle
          vAngle := (camOrientationStep camInitState).vAngle } := by
  refine ⟨fun s => ⟨rfl, rfl, rfl, rfl⟩, ?_, ?_, ?_⟩ <;>
    norm_num [camOrientationStep, camInitState, mouseSpeed]

/-! ### Light placement (`ClassroomSimulator::LoadScene`, `main.cpp:439-448`). -/

/-- The nine classroom light positions: the embedding of the loop
```
for (int i = 0; i < 3; i++)
  for (int j = 0; j < 3; j++) {
    float cx = -22.54f + i * 25.76f;
    float cz = -25.76f + j * 25.76f;
    classroomLightPositions_worldspace[lightIdx++] = glm::vec3(cx, 38.6f, cz);
  }
```
which fills indices `0..8` (row-major: `lightIdx = 3*i + j`). -/
def lightPositions : List (V3 ℚ) :=
  (List.range 3).flatMap fun i =>
    (List.range 3).map fun j =>
      ⟨-2254/100 + i * 2576/100, 386/10, -2576/100 + j * 2576/100⟩

/-- C7: scene composition places exactly 9 light positions on a 3×3 grid
with spacing 25.76, base offset `(-22.54, 38.6, -25.76)` and constant
height 38.6, in row-major order; light 4 (grid cell `i = 1, j = 1`) is at
`(3.22, 38.6, 0)`. -/
theorem light_grid_positions :
    lightPositions.length = 9 ∧
    (∀ i j : Fin 3,
      lightPositions.getD (3 * i.val + j.val) ⟨0, 0, 0⟩ =
        ⟨-2254/100 + i.val * 2576/100, 386/10,
         -2576/100 + j.val * 2576/100⟩) ∧
    (lightPositions.all fun p => p.y = 386/10) = true ∧
    lightPositions.getD 4 ⟨0, 0, 0⟩ = ⟨322/100, 386/10, 0⟩ := by
  refine ⟨?_, ?_, ?_, ?_⟩
  · norm_num [lightPositions, List.range_succ]
  · intro i j
    fin_cases i <;> fin_cases j <;>
      norm_num [lightPositions, List.range_succ]
  · norm_num [lightPositions, List.range_succ]
  · norm_num [lightPositions, List.range_succ]

/-! ### Shading-mode toggle (`ClassroomSimulator::MainLoop`, `main.cpp:461-467`). -/

/-- The C++ expression `shadingMode = !shadingMode` on the `int`
`shadingMode`: logical negation of an integer. -/
def cppNot (m : ℕ) : ℕ := if m = 0 then 1 else 0

/-- One frame of the G-key handling at the top of the main loop, acting on
the pair `(shadingMode, gKeyPressed)`; `gDown` is whether
`glfwGetKey(window, GLFW_KEY_G) == GLFW_PRESS` this frame:
```
if (glfwGetKey(window, GLFW_KEY_G) == GLFW_PRESS) {
  if (!gKeyPressed) { shadingMode = !shadingMode; gKeyPressed = true; }
} else { gKeyPressed = false; }
``` -/
def toggleStep (s : ℕ × Bool) (gDown : Bool) : ℕ × Bool :=
  if gDown then
    if !s.2 then (cppNot s.1, true) else s
  else
    (s.1, false)

/-- The toggle state after a sequence of per-frame key levels. -/
def runToggle (s : ℕ × Bool) (keys : List Bool) : ℕ × Bool :=
  keys.foldl toggleStep s

theorem runToggle_append (s : ℕ × Bool) (a b : List Bool) :
    runToggle s (a ++ b) = runToggle (runToggle s a) b :=
  List.foldl_append ..

theorem runToggle_held (m : ℕ) (k : ℕ) :
    runToggle (m, true) (List.replicate k true) = (m, true) := by
  induction k with
  | zero => rfl
  | succ n ih =>
    rw [List.replicate_succ]
    simpa [runToggle, toggleStep] using ih

theorem runToggle_press (m : ℕ) (k : ℕ) (hk : 1 ≤ k) :
    runToggle (m, false) (List.replicate k true) = (cppNot m, true) := by
  obtain ⟨n, rfl⟩ := Nat.exists_eq_add_of_le hk
  rw [Nat.add_comm, List.replicate_succ]
  simpa [runToggle, toggleStep] using runToggle_held (cppNot m) n

/-- C8: if the shading-mode key goes down for `k ≥ 1` consecutive frames
from a state whose previously-pressed flag is clear, the mode has flipped
exactly once after every prefix of `j ≥ 1` held frames (so it flips once
regardless of `k`); the frame that observes the release clears the flag
without changing the mode, and a subsequent press of `k' ≥ 1` frames flips
the mode exactly once more. -/
theorem shading_toggle_edge (m : ℕ) (k j k' : ℕ) (hj1 : 1 ≤ j) (hjk : j ≤ k)
    (hk' : 1 ≤ k') :
    runToggle (m, false) (List.replicate j true) = (cppNot m, true) ∧
    runToggle (m, false) (List.replicate k true ++ [false]) =
      (cppNot m, false) ∧
    runToggle (m, false)
        (List.replicate k true ++ [false] ++ List.replicate k' true) =
      (cppNot (cppNot m), true) := by
  have hk : 1 ≤ k := le_trans hj1 hjk
  refine ⟨runToggle_press m j hj1, ?_, ?_⟩
  · rw [runToggle_append, runToggle_press m k hk]
    rfl
  · rw [runToggle_append, runToggle_append, runToggle_press m k hk]
    have : runToggle (cppNot m, true) [false] = (cppNot m, false) := rfl
    rw [this, runToggle_press (cppNot m) k' hk']

/-- Witness for C8: a hold of 3 frames, checked after a prefix of 2 frames,
then a release and a second hold of 2 frames, starting from mode 0. -/
theorem shading_toggle_edge_witness :
    runToggle (0, false) (List.replicate 2 true) = (cppNot 0, true) ∧
    runToggle (0, false) (List.replicate 3 true ++ [false]) =
      (cppNot 0, false) ∧
    runToggle (0, false)
        (List.replicate 3 true ++ [false] ++ List.replicate 2 true) =
      (cppNot (cppNot 0), true) :=
  shading_toggle_edge 0 3 2 2 (by decide) (by decide) (by decide)

/-! ### Manual placement (`ClassroomSimulator::AddObject`, `main.cpp:599-606`)
and the GLM transform constructors it calls. GLM's trigonometry forces this
part of the embedding onto `ℝ`. -/

/-- 4×4 matrices over `ℝ` (mathematical row/column convention; `glm` entry
`M[c][r]` is entry `(r, c)` here). -/
abbrev Mat4R := Matrix (Fin 4) (Fin 4) ℝ

/-- `glm::radians`: degrees to radians. -/
noncomputable def radiansR (d : ℝ) : ℝ := d * (Real.pi / 180)

/-- The translation matrix produced by `glm::translate(mat4(1), v)`. -/
noncomputable def translationMat (v : V3 ℝ) : Mat4R :=
  !![1, 0, 0, v.x;
     0, 1, 0, v.y;
     0, 0, 1, v.z;
     0, 0, 0, 1]

/-- `glm::normalize` on a `vec3` (`v * inversesqrt(dot(v, v))`). -/
noncomputable def normalizeV (v : V3 ℝ) : V3 ℝ :=
  let n := Real.sqrt (v.x * v.x + v.y * v.y + v.z * v.z)
  ⟨v.x / n, v.y / n, v.z / n⟩

/-- The axis-angle rotation matrix built by `glm::rotate` (GLM
`matrix_transform.inl`): with `c = cos θ`, `s = sin θ`, `a = normalize(v)`
and `temp = (1 - c) * a`, the columns of the `glm` matrix are transcribed
here as mathematical columns. -/
noncomputable def rotationMat (θ : ℝ) (v : V3 ℝ) : Mat4R :=
  let c := Real.cos θ
  let s := Real.sin θ
  let a := normalizeV v
  let t : V3 ℝ := ⟨(1 - c) * a.x, (1 - c) * a.y, (1 - c) * a.z⟩
  !![c + t.x * a.x, t.y * a.x - s * a.z, t.z * a.x + s * a.y, 0;
     t.x * a.y + s * a.z, c + t.y * a.y, t.z * a.y - s * a.x, 0;
     t.x * a.z - s * a.y, t.y * a.z + s * a.x, c + t.z * a.z, 0;
     0, 0, 0, 1]

/-- The scale matrix produced by `glm::scale(mat4(1), v)`. -/
noncomputable def scaleMat (v : V3 ℝ) : Mat4R :=
  !![v.x, 0, 0, 0;
     0, v.y, 0, 0;
     0, 0, v.z, 0;
     0, 0, 0, 1]

/-- `glm::translate(m, v) = m * T(v)`. -/
noncomputable def glmTranslate (m : Mat4R) (v : V3 ℝ) : Mat4R :=
  m * translationMat v

/-- `glm::rotate(m, angle, axis) = m * R(angle, axis)`. -/
noncomputable def glmRotate (m : Mat4R) (angle : ℝ) (axis : V3 ℝ) : Mat4R :=
  m * rotationMat angle axis

/-- `glm::scale(m, v) = m * S(v)`. -/
noncomputable def glmScale (m : Mat4R) (v : V3 ℝ) : Mat4R :=
  m * scaleMat v

/-- The instance transform appended by `ClassroomSimulator::AddObject`
(`main.cpp:599-606`): starting from the identity, translate, then rotate
only when `rotDeg != 0.0f`, then scale only when `scale != vec3(1.0f)`. -/
noncomputable def addObjectModel (pos : V3 ℝ) (rotDeg : ℝ) (rotAxis : V3 ℝ)
    (scl : V3 ℝ) : Mat4R :=
  let model := glmTranslate 1 pos
  let model := if rotDeg ≠ 0 then glmRotate model (radiansR rotDeg) rotAxis
    else model
  let model := if scl ≠ (⟨1, 1, 1⟩ : V3 ℝ) then glmScale model scl else model
  model

/-- Modelled from the spec's words for the refinement comparison: the
unconditional composition `translate(pos) * rotate(radians(rotDeg), rotAxis)
* scale(scale)` in the fixed order translate → rotate → scale. -/
noncomputable def addObjectSpec (pos : V3 ℝ) (rotDeg : ℝ) (rotAxis : V3 ℝ)
    (scl : V3 ℝ) : Mat4R :=
  glmScale (glmRotate (glmTranslate 1 pos) (radiansR rotDeg) rotAxis) scl

theorem rotationMat_zero (v : V3 ℝ) : rotationMat 0 v = 1 := by
  ext i j
  fin_cases i <;> fin_cases j <;>
    simp [rotationMat, Matrix.one_apply, Matrix.vecHead, Matrix.vecTail]

theorem scaleMat_one : scaleMat ⟨1, 1, 1⟩ = 1 := by
  ext i j
  fin_cases i <;> fin_cases j <;>
    simp [scaleMat, Matrix.one_apply, Matrix.vecHead, Matrix.vecTail]

/-- C9: for every manual placement, the conditional transform built by
`AddObject` (which skips the rotation factor when `rotDeg = 0` and the
scale factor when `scale = (1,1,1)`) equals the unconditional composition
`translate(pos) * rotate(radians(rotDeg), rotAxis) * scale(scale)`. -/
theorem addObject_eq_unconditional (pos : V3 ℝ) (rotDeg : ℝ)
    (rotAxis : V3 ℝ) (scl : V3 ℝ) :
    addObjectModel pos rotDeg rotAxis scl =
      addObjectSpec pos rotDeg rotAxis scl := by
  by_cases hr : rotDeg = 0 <;> by_cases hs : scl = (⟨1, 1, 1⟩ : V3 ℝ) <;>
    simp [addObjectModel, addObjectSpec, glmRotate, glmScale, hr, hs,
      radiansR, rotationMat_zero, scaleMat_one]

/-! ### Instance grids (`ClassroomSimulator::LoadScene`, `main.cpp:381-387`).
The scene-composition grids are double loops
`for i in 0..N-1: for j in 0..M-1: if P i j then continue; addInstance (f i j)`. -/

/-- The generic rectangular instance grid with exclusion predicate, the
shape shared by the bench grid (and, with `P = false`, the fan grid). -/
def gridInstances (N M : ℕ) (P : ℕ → ℕ → Bool) (f : ℕ → ℕ → α) : List α :=
  (List.range N).flatMap fun i =>
    (List.range M).filterMap fun j => if P i j then none else some (f i j)

/-- The number of grid cells the exclusion predicate skips. -/
def excludedCount (N M : ℕ) (P : ℕ → ℕ → Bool) : ℕ :=
  ((List.range N).map fun i =>
    ((List.range M).filter fun j => P i j).length).sum

theorem filterMap_if_eq_map_filter (P : ℕ → Bool) (f : ℕ → α) (l : List ℕ) :
    (l.filterMap fun j => if P j then none else some (f j)) =
      (l.filter fun j => !P j).map f := by
  induction l with
  | nil => rfl
  | cons a t ih => by_cases h : P a <;> simp [h, ih]

theorem length_filterMap_if_add (p : ℕ → Bool) (g : ℕ → α) (l : List ℕ) :
    (l.filterMap fun j => if p j then none else some (g j)).length +
      (l.filter fun j => p j).length = l.length := by
  induction l with
  | nil => rfl
  | cons a t ih => by_cases h : p a <;> simp [h] <;> omega

/-- Strict row-major order on grid indices: earlier row, or same row and
earlier column. -/
def rowMajorLT (a b : ℕ × ℕ) : Prop :=
  a.1 < b.1 ∨ (a.1 = b.1 ∧ a.2 < b.2)

theorem pairwise_flatMap_range {α : Type} (R : α → α → Prop) (n : ℕ)
    (f : ℕ → List α) (hrow : ∀ i, (f i).Pairwise R)
    (hcross : ∀ i j, i < j → ∀ a ∈ f i, ∀ b ∈ f j, R a b) :
    ((List.range n).flatMap f).Pairwise R := by
  induction n with
  | zero => simp
  | succ m ih =>
    rw [List.range_succ, List.flatMap_append, List.pairwise_append]
    refine ⟨ih, by simpa using hrow m, ?_⟩
    intro a ha b hb
    rw [List.mem_flatMap] at ha
    obtain ⟨i, hi, hai⟩ := ha
    simp only [List.flatMap_cons, List.flatMap_nil, List.append_nil] at hb
    exact hcross i m (List.mem_range.1 hi) a hai b hb

theorem gridInstances_length_add (N M : ℕ) (P : ℕ → ℕ → Bool)
    (f : ℕ → ℕ → α) :
    (gridInstances N M P f).length + excludedCount N M P = N * M := by
  induction N with
  | zero => simp [gridInstances, excludedCount]
  | succ n ih =>
    have hrow := length_filterMap_if_add (fun j => P n j) (fun j => f n j)
      (List.range M)
    rw [List.length_range] at hrow
    rw [gridInstances, excludedCount, List.range_succ] at *
    simp only [List.flatMap_append, List.flatMap_cons, List.flatMap_nil,
      List.append_nil, List.length_append, List.map_append, List.sum_append,
      List.map_cons, List.map_nil, List.sum_cons, List.sum_nil,
      Nat.add_zero] at *
    rw [Nat.succ_mul]
    linarith [ih, hrow]

theorem gridInstances_length (N M : ℕ) (P : ℕ → ℕ → Bool) (f : ℕ → ℕ → α) :
    (gridInstances N M P f).length = N * M - excludedCount N M P := by
  have h := gridInstances_length_add N M P f
  omega

theorem gridInstances_pairwise (N M : ℕ) (P : ℕ → ℕ → Bool) :
    (gridInstances N M P fun i j => (i, j)).Pairwise rowMajorLT := by
  apply pairwise_flatMap_range
  · intro i
    rw [filterMap_if_eq_map_filter, List.pairwise_map]
    exact ((List.pairwise_lt_range M).filter _).imp fun h =>
      Or.inr ⟨rfl, h⟩
  · intro i j hij a ha b hb
    rw [filterMap_if_eq_map_filter] at ha hb
    obtain ⟨a', _, rfl⟩ := List.mem_map.1 ha
    obtain ⟨b', _, rfl⟩ := List.mem_map.1 hb
    exact Or.inl hij

/-- The bench exclusion predicate from `main.cpp:384`:
`if (i == 0 && (j == 3 || j == 4)) continue; // Leave Aisle`. -/
def benchSkip (i j : ℕ) : Bool := i == 0 && (j == 3 || j == 4)

/-- The bench instance list built at `main.cpp:382-387`: a 5×5 grid with
the aisle cells skipped, each cell placed by
`AddObject(bench, vec3(-16 + i*9.5, 0.5, -40 + j*20), 90, vec3(0,1,0))`. -/
noncomputable def benchInstances : List Mat4R :=
  gridInstances 5 5 benchSkip fun i j =>
    addObjectModel ⟨-16 + i * (95/10), 1/2, -40 + j * 20⟩ 90 ⟨0, 1, 0⟩
      ⟨1, 1, 1⟩

/-- C6: a rectangular N×M instance grid with exclusion predicate `P` appends
exactly `N*M` minus the number of excluded cells instance transforms, in
row-major (outer `i`, inner `j`) order; in particular the bench grid of 5×5
cells skipping `(0,3)` and `(0,4)` yields exactly 23 bench instances. -/
theorem grid_instance_count_and_order :
    (∀ (α : Type) (N M : ℕ) (P : ℕ → ℕ → Bool) (f : ℕ → ℕ → α),
      (gridInstances N M P f).length = N * M - excludedCount N M P) ∧
    (∀ (N M : ℕ) (P : ℕ → ℕ → Bool),
      (gridInstances N M P fun i j => (i, j)).Pairwise rowMajorLT) ∧
    benchInstances.length = 23 := by
  refine ⟨fun α N M P f => gridInstances_length N M P f,
    fun N M P => gridInstances_pairwise N M P, ?_⟩
  rw [benchInstances, gridInstances_length]
  decide

/-! ### Mesh resources, loaders and render buckets
(`struct Mesh`, `LoadStandardMesh`, `LoadNormalMapMesh`,
`ClassroomSimulator::LoadScene`, `main.cpp:72-114, 337-377, 608-692`).

`MeshRes` embeds the GPU-resource part of `struct Mesh` (the GL object
names and the `hasNormalMap` flag); the geometry and the instance-transform
list, which the render-pass claims consume, are modelled separately by
`Batch` below. GL name generation is modelled by counters starting at 1:
`glGenBuffers`/`glGenTextures` return fresh, nonzero names, and buffer and
texture names live in separate namespaces. -/

/-- The twenty named `Mesh` members of `ClassroomSimulator`
(`main.cpp:161-164`). -/
inductive MeshName where
  | bench | door | switchObj | exhaust | clock | pipe | projector | screen
  | floorMesh | fan | greenboard | podium | table | lightPanel | grid
  | windowMesh | wallFan | glass | wall | ceiling
deriving DecidableEq

/-- The GL-resource fields of `struct Mesh` (`main.cpp:72-93`); every handle
is zero-initialised, as in the source. -/
structure MeshRes where
  vertexBuffer : ℕ := 0
  uvBuffer : ℕ := 0
  normalBuffer : ℕ := 0
  elementBuffer : ℕ := 0
  tangentBuffer : ℕ := 0
  bitangentBuffer : ℕ := 0
  textureID : ℕ := 0
  normalTextureID : ℕ := 0
  specularTextureID : ℕ := 0
  hasNormalMap : Bool := false
deriving DecidableEq

/-- Fresh-name state of the GL context: the next buffer and texture names
`glGenBuffers`/`glGenTextures` will hand out (names start at 1; 0 is never
a valid object name). -/
structure GLCtx where
  nextBuf : ℕ
  nextTex : ℕ
deriving DecidableEq

def genBuffer (c : GLCtx) : ℕ × GLCtx :=
  (c.nextBuf, { c with nextBuf := c.nextBuf + 1 })

def genTexture (c : GLCtx) : ℕ × GLCtx :=
  (c.nextTex, { c with nextTex := c.nextTex + 1 })

/-- `ClassroomSimulator::LoadStandardMesh` (`main.cpp:608-642`): loads the
diffuse texture, then generates the vertex/uv/normal/element buffers;
`hasNormalMap = false` and no tangent/bitangent/normal/specular resource is
ever created. -/
def loadStandardMesh (c : GLCtx) : MeshRes × GLCtx :=
  let (tex, c) := genTexture c
  let (vb, c) := genBuffer c
  let (uv, c) := genBuffer c
  let (nb, c) := genBuffer c
  let (eb, c) := genBuffer c
  ({ vertexBuffer := vb, uvBuffer := uv, normalBuffer := nb,
     elementBuffer := eb, textureID := tex, hasNormalMap := false }, c)

/-- `ClassroomSimulator::LoadNormalMapMesh` (`main.cpp:644-692`): loads the
diffuse, normal and specular textures, sets `hasNormalMap = true`, then
generates the vertex/uv/normal/tangent/bitangent/element buffers. -/
def loadNormalMapMesh (c : GLCtx) : MeshRes × GLCtx :=
  let (tex, c) := genTexture c
  let (ntex, c) := genTexture c
  let (stex, c) := genTexture c
  let (vb, c) := genBuffer c
  let (uv, c) := genBuffer c
  let (nb, c) := genBuffer c
  let (tb, c) := genBuffer c
  let (bb, c) := genBuffer c
  let (eb, c) := genBuffer c
  ({ vertexBuffer := vb, uvBuffer := uv, normalBuffer := nb,
     elementBuffer := eb, tangentBuffer := tb, bitangentBuffer := bb,
     textureID := tex, normalTextureID := ntex, specularTextureID := stex,
     hasNormalMap := true }, c)

/-- The load calls of `LoadScene` (`main.cpp:344-368`) in source order;
`true` marks the two `LoadNormalMapMesh` calls. Note that `grid` is loaded
by `LoadStandardMesh` (`main.cpp:358`). -/
def loadOrder : List (MeshName × Bool) :=
  [(.bench, false), (.door, false), (.switchObj, false), (.exhaust, false),
   (.clock, false), (.pipe, false), (.projector, false), (.screen, false),
   (.floorMesh, false), (.fan, false), (.greenboard, false),
   (.podium, false), (.table, false), (.lightPanel, false), (.grid, false),
   (.windowMesh, false), (.wallFan, false), (.glass, false), (.wall, true),
   (.ceiling, true)]

/-- Running all load calls of `LoadScene`, threading the GL context from a
fresh context. -/
def loadSceneRun : List (MeshName × MeshRes) × GLCtx :=
  loadOrder.foldl
    (fun acc nk =>
      let (m, c) := if nk.2 then loadNormalMapMesh acc.2
        else loadStandardMesh acc.2
      (acc.1 ++ [(nk.1, m)], c))
    ([], ⟨1, 1⟩)

/-- The mesh member of `ClassroomSimulator` named `n` after `LoadScene`. -/
def sceneMesh (n : MeshName) : MeshRes :=
  ((loadSceneRun.1.find? fun p => decide (p.1 = n)).map Prod.snd).getD {}

/-- `opaqueMeshes` (`main.cpp:372-375`). -/
def opaqueMeshNames : List MeshName :=
  [.bench, .door, .switchObj, .exhaust, .clock, .pipe, .projector, .screen,
   .floorMesh, .fan, .greenboard, .podium, .table, .windowMesh, .wallFan]

/-- `normalMapMeshes` (`main.cpp:376`). -/
def normalMapMeshNames : List MeshName := [.wall, .ceiling, .grid]

/-- `transparentMeshes` (`main.cpp:377`). -/
def transparentMeshNames : List MeshName := [.glass]

/-- Counterexample to C4: `grid` is a member of the normal-mapped bucket
(`main.cpp:376`) although it was loaded by `LoadStandardMesh`
(`main.cpp:358`), so its `hasNormalMap` flag is `false` and it owns no
tangent/bitangent buffers and no normal/specular textures. -/
theorem bucket_material_counterexample :
    MeshName.grid ∈ normalMapMeshNames ∧
    (sceneMesh .grid).hasNormalMap = false ∧
    (sceneMesh .grid).tangentBuffer = 0 ∧
    (sceneMesh .grid).bitangentBuffer = 0 ∧
    (sceneMesh .grid).normalTextureID = 0 ∧
    (sceneMesh .grid).specularTextureID = 0 := by
  decide

/-- C4 (amended): after scene composition the three render buckets are
pairwise disjoint; every batch in the opaque and transparent buckets has
`hasNormalMap` false and owns no tangent/bitangent buffers and no
normal/specular textures; in the normal-mapped bucket, `wall` and `ceiling`
have `hasNormalMap` true and own tangent/bitangent buffers and
normal/specular textures, while `grid` sits in that bucket with
`hasNormalMap` false and none of those resources. -/
theorem buckets_disjoint_and_material :
    (opaqueMeshNames.all fun n =>
      decide (n ∉ normalMapMeshNames) &&
      decide (n ∉ transparentMeshNames)) = true ∧
    (normalMapMeshNames.all fun n =>
      decide (n ∉ transparentMeshNames)) = true ∧
    (opaqueMeshNames.all fun n =>
      !(sceneMesh n).hasNormalMap &&
      decide ((sceneMesh n).tangentBuffer = 0) &&
      decide ((sceneMesh n).bitangentBuffer = 0) &&
      decide ((sceneMesh n).normalTextureID = 0) &&
      decide ((sceneMesh n).specularTextureID = 0)) = true ∧
    (transparentMeshNames.all fun n =>
      !(sceneMesh n).hasNormalMap &&
      decide ((sceneMesh n).tangentBuffer = 0) &&
      decide ((sceneMesh n).bitangentBuffer = 0) &&
      decide ((sceneMesh n).normalTextureID = 0) &&
      decide ((sceneMesh n).specularTextureID = 0)) = true ∧
    ([MeshName.wall, MeshName.ceiling].all fun n =>
      (sceneMesh n).hasNormalMap &&
      decide ((sceneMesh n).tangentBuffer ≠ 0) &&
      decide ((sceneMesh n).bitangentBuffer ≠ 0) &&
      decide ((sceneMesh n).normalTextureID ≠ 0) &&
      decide ((sceneMesh n).specularTextureID ≠ 0)) = true ∧
    (sceneMesh .grid).hasNormalMap = false := by
  decide

/-! ### Disposal (`Mesh::Dispose`, `main.cpp:100-113`, and
`ClassroomSimulator::Cleanup`, `main.cpp:572-593`).

`Mesh::Dispose` issues `glDeleteBuffers`/`glDeleteTextures` calls, guarded
by handle-nonzero checks for the five always-present resources and by
`hasNormalMap` for the four normal-mapping resources; it does not modify
the mesh. The OpenGL semantics of the delete calls is modelled by a
live-object state: deleting the name 0 or a name with no live object is
silently ignored, otherwise the object is released and ceases to exist. -/

/-- A GL object name together with its namespace (buffer or texture);
used both for delete requests and for release events. -/
inductive GLObj where
  | buf (n : ℕ)
  | tex (n : ℕ)
deriving DecidableEq

/-- The live GL objects. -/
structure GLLive where
  buffers : Finset ℕ
  textures : Finset ℕ
deriving DecidableEq

/-- `o` denotes no live object in `s` (name 0 or no object with that name),
so a delete of `o` is silently ignored. -/
def objDead (s : GLLive) (o : GLObj) : Prop :=
  match o with
  | .buf n => n = 0 ∨ n ∉ s.buffers
  | .tex n => n = 0 ∨ n ∉ s.textures

instance (s : GLLive) (o : GLObj) : Decidable (objDead s o) := by
  unfold objDead
  match o with
  | .buf n => exact inferInstanceAs (Decidable (n = 0 ∨ n ∉ s.buffers))
  | .tex n => exact inferInstanceAs (Decidable (n = 0 ∨ n ∉ s.textures))

/-- One `glDeleteBuffers`/`glDeleteTextures` call on a single name:
releases the object if it is live, and is silently ignored otherwise. -/
def delOne (s : GLLive) (o : GLObj) : List GLObj × GLLive :=
  match o with
  | .buf n =>
    if n ≠ 0 ∧ n ∈ s.buffers then
      ([.buf n], { s with buffers := s.buffers.erase n })
    else ([], s)
  | .tex n =>
    if n ≠ 0 ∧ n ∈ s.textures then
      ([.tex n], { s with textures := s.textures.erase n })
    else ([], s)

/-- Run a sequence of delete calls, collecting the release events. -/
def runDeletes (ops : List GLObj) (s : GLLive) : List GLObj × GLLive :=
  match ops with
  | [] => ([], s)
  | o :: rest =>
    let (r, s') := delOne s o
    let (rs, s'') := runDeletes rest s'
    (r ++ rs, s'')

/-- The delete calls issued by one execution of `Mesh::Dispose`
(`main.cpp:100-113`), in source order. -/
def MeshRes.deleteOps (m : MeshRes) : List GLObj :=
  (if m.vertexBuffer ≠ 0 then [GLObj.buf m.vertexBuffer] else []) ++
  (if m.uvBuffer ≠ 0 then [GLObj.buf m.uvBuffer] else []) ++
  (if m.normalBuffer ≠ 0 then [GLObj.buf m.normalBuffer] else []) ++
  (if m.elementBuffer ≠ 0 then [GLObj.buf m.elementBuffer] else []) ++
  (if m.textureID ≠ 0 then [GLObj.tex m.textureID] else []) ++
  (if m.hasNormalMap then
    [GLObj.buf m.tangentBuffer, GLObj.buf m.bitangentBuffer,
     GLObj.tex m.normalTextureID, GLObj.tex m.specularTextureID]
   else [])

/-- One call of `Mesh::Dispose` on mesh `m` in GL state `s`: the mesh
itself is not modified by the source method, so a second call issues the
same delete sequence. -/
def disposeRun (m : MeshRes) (s : GLLive) : List GLObj × GLLive :=
  runDeletes m.deleteOps s

theorem delOne_dead (s : GLLive) (o : GLObj) (h : objDead s o) :
    delOne s o = ([], s) := by
  match o with
  | .buf n =>
    simp only [delOne]
    rw [if_neg]
    rintro ⟨h1, h2⟩
    rcases h with h | h
    · exact h1 h
    · exact h h2
  | .tex n =>
    simp only [delOne]
    rw [if_neg]
    rintro ⟨h1, h2⟩
    rcases h with h | h
    · exact h1 h
    · exact h h2

theorem objDead_delOne_mono (s : GLLive) (o o' : GLObj) (h : objDead s o) :
    objDead (delOne s o').2 o := by
  rcases o' with n' | n' <;> rcases o with n | n <;>
    simp only [delOne, objDead] at h ⊢ <;> split <;>
    first
      | exact h
      | (rcases h with h | h
         · exact Or.inl h
         · exact Or.inr fun hc => h (Finset.mem_of_mem_erase hc))

theorem objDead_delOne_self (s : GLLive) (o : GLObj) :
    objDead (delOne s o).2 o := by
  rcases o with n | n <;> simp only [delOne, objDead] <;> split
  · exact Or.inr (Finset.not_mem_erase n s.buffers)
  · rename_i hc
    by_cases h0 : n = 0
    · exact Or.inl h0
    · exact Or.inr fun hm => hc ⟨h0, hm⟩
  · exact Or.inr (Finset.not_mem_erase n s.textures)
  · rename_i hc
    by_cases h0 : n = 0
    · exact Or.inl h0
    · exact Or.inr fun hm => hc ⟨h0, hm⟩

theorem objDead_runDeletes_mono (ops : List GLObj) (s : GLLive) (o : GLObj)
    (h : objDead s o) : objDead (runDeletes ops s).2 o := by
  induction ops generalizing s with
  | nil => exact h
  | cons a rest ih =>
    simp only [runDeletes]
    exact ih (delOne s a).2 (objDead_delOne_mono s o a h)

theorem objDead_runDeletes_mem (ops : List GLObj) (s : GLLive) :
    ∀ o ∈ ops, objDead (runDeletes ops s).2 o := by
  induction ops generalizing s with
  | nil => intro o ho; cases ho
  | cons a rest ih =>
    intro o ho
    simp only [runDeletes]
    rcases List.mem_cons.1 ho with rfl | ho
    · exact objDead_runDeletes_mono rest (delOne s o).2 o
        (objDead_delOne_self s o)
    · exact ih (delOne s a).2 o ho

theorem runDeletes_noop (ops : List GLObj) (s : GLLive)
    (h : ∀ o ∈ ops, objDead s o) : runDeletes ops s = ([], s) := by
  induction ops with
  | nil => rfl
  | cons a rest ih =>
    simp only [runDeletes]
    rw [delOne_dead s a (h a (List.mem_cons_self a rest))]
    rw [ih fun o ho => h o (List.mem_cons_of_mem a ho)]
    rfl

theorem runDeletes_releases_live (ops : List GLObj) (s : GLLive) :
    ∀ o ∈ (runDeletes ops s).1, ¬ objDead s o := by
  induction ops generalizing s with
  | nil => intro o ho; cases ho
  | cons a rest ih =>
    intro o ho
    simp only [runDeletes] at ho
    rcases List.mem_append.1 ho with ho | ho
    · rcases a with n | n <;> simp only [delOne] at ho <;>
        (split at ho
         · rename_i hc
           simp only [List.mem_singleton] at ho
           subst ho
           simp only [objDead, not_or, not_not]
           exact ⟨hc.1, hc.2⟩
         · cases ho)
    · intro hdead
      exact ih (delOne s a).2 o ho (objDead_delOne_mono s o a hdead)

theorem runDeletes_nodup (ops : List GLObj) (s : GLLive) :
    (runDeletes ops s).1.Nodup := by
  induction ops generalizing s with
  | nil => exact List.nodup_nil
  | cons a rest ih =>
    simp only [runDeletes]
    rcases a with n | n <;> simp only [delOne] <;> split <;>
      simp only [List.nil_append, List.singleton_append, List.nodup_cons]
    · refine ⟨fun hm => ?_, ih _⟩
      exact runDeletes_releases_live rest _ _ hm
        (Or.inr (Finset.not_mem_erase n s.buffers))
    · exact ih s
    · refine ⟨fun hm => ?_, ih _⟩
      exact runDeletes_releases_live rest _ _ hm
        (Or.inr (Finset.not_mem_erase n s.textures))
    · exact ih s

/-- The live GL objects right after `LoadScene`: all buffer and texture
names the loaders generated (1 up to the final counters, exclusive) are
live and nothing has been deleted yet. -/
def liveAfterLoad : GLLive :=
  ⟨(Finset.range loadSceneRun.2.nextBuf).erase 0,
   (Finset.range loadSceneRun.2.nextTex).erase 0⟩

/-- C5: `Mesh::Dispose` releases each owned GPU resource at most once, and
a second `Dispose` in sequence releases nothing (the handles it re-submits
no longer name live objects, and OpenGL ignores such deletes); `Dispose` on
a mesh owning no resources releases nothing; on the freshly loaded scene,
disposing the normal-mapped `wall` mesh releases its nine resources
(vertex/uv/normal/element/tangent/bitangent buffers, diffuse/normal/
specular textures) and disposing the standard `bench` mesh releases its
five. -/
theorem dispose_exactly_once :
    (∀ (m : MeshRes) (s : GLLive), (disposeRun m (disposeRun m s).2).1 = []) ∧
    (∀ (m : MeshRes) (s : GLLive), (disposeRun m s).1.Nodup) ∧
    (∀ (b : Bool) (s : GLLive),
      disposeRun { hasNormalMap := b } s = ([], s)) ∧
    (disposeRun (sceneMesh .wall) liveAfterLoad).1.length = 9 ∧
    (disposeRun (sceneMesh .bench) liveAfterLoad).1.length = 5 := by
  refine ⟨?_, ?_, ?_, by decide, by decide⟩
  · intro m s
    have h := objDead_runDeletes_mem m.deleteOps s
    have := runDeletes_noop m.deleteOps (runDeletes m.deleteOps s).2 h
    rw [disposeRun, disposeRun, this]
  · intro m s
    exact runDeletes_nodup m.deleteOps s
  · intro b s
    apply runDeletes_noop
    intro o ho
    have hzero : o = GLObj.buf 0 ∨ o = GLObj.tex 0 := by
      rcases b with _ | _ <;> simp [MeshRes.deleteOps] at ho
      tauto
    rcases hzero with rfl | rfl <;> exact Or.inl rfl

/-! ### The shadow pass (`ClassroomSimulator::MainLoop` PASS 1,
`main.cpp:474-501`, and `DrawMeshShadow`, `main.cpp:744-757`).

The passes are modelled over batches: the per-pass view of a `Mesh`,
namely an identifier (standing for the mesh object) and its
`modelMatrices` instance list. `glm::lookAt` and `glm::perspective` are
external GLM collaborators whose numeric content the pass only multiplies,
so they enter the model as parameters (`lookAtF` and the fixed projection
matrix `persp = perspective(radians(120), 1.5, 5, 1000)`). -/

/-- The per-pass view of a `Mesh`: its identity and its `modelMatrices`. -/
structure Batch where
  id : ℕ
  instances : List Mat4Q

/-- The scene as `MainLoop` consumes it: the three buckets
(`opaqueMeshes`, `normalMapMeshes`, `transparentMeshes`) plus the unlit
`lightPanel` mesh drawn separately in the lighting pass. -/
structure SceneM where
  opaques : List Batch
  normalMapped : List Batch
  transparents : List Batch
  lightPanel : Batch

/-- One indexed draw issued by `DrawMeshShadow`: the light layer being
rendered, the mesh, the instance transform, and the `depthMVP` uniform
value `dProj * dView * modelMatrix`. -/
structure SEvent where
  light : ℕ
  meshId : ℕ
  model : Mat4Q
  depthMVP : Mat4Q

/-- `DrawMeshShadow` (`main.cpp:744-757`): one indexed draw per instance
transform, with `depthMVP = dProj * dView * modelMatrix`. -/
def drawMeshShadow (L : ℕ) (dProj dView : Mat4Q) (b : Batch) :
    List SEvent :=
  b.instances.map fun mm => ⟨L, b.id, mm, dProj * dView * mm⟩

/-- The light view matrix of `main.cpp:489`:
`lookAt(lightPos, lightPos + (0,-1,0), (0,0,-1))`. -/
def shadowLightView (lookAtF : V3 ℚ → V3 ℚ → V3 ℚ → Mat4Q) (p : V3 ℚ) :
    Mat4Q :=
  lookAtF p (p + ⟨0, -1, 0⟩) ⟨0, 0, -1⟩

/-- The body of one iteration of the shadow-pass light loop
(`main.cpp:484-499`) for layer `L`: draw every opaque-bucket batch, then
every normal-mapped-bucket batch, and compute the depth-bias entry
`biasMatrix * depthProj * depthView` that `MainLoop` pushes onto
`allDepthBiasMVPs`. -/
def shadowPassLight (lookAtF : V3 ℚ → V3 ℚ → V3 ℚ → Mat4Q) (persp : Mat4Q)
    (lights : ℕ → V3 ℚ) (sc : SceneM) (L : ℕ) : List SEvent × Mat4Q :=
  let dView := shadowLightView lookAtF (lights L)
  let dProj := persp
  (sc.opaques.flatMap (drawMeshShadow L dProj dView) ++
     sc.normalMapped.flatMap (drawMeshShadow L dProj dView),
   biasMatrixQ * dProj * dView)

/-- The whole shadow pass of one frame (`main.cpp:480-501`): the doubly
nested `i, j` loop over the 3×3 light grid with the post-incremented
`lightIdx`, which visits layers `lightIdx = 3*i + j = 0..8` in order.
`allDepthBiasMVPs` is cleared before the loop (`main.cpp:478`), so the
returned bias list holds exactly this frame's entries. -/
def shadowPass (lookAtF : V3 ℚ → V3 ℚ → V3 ℚ → Mat4Q) (persp : Mat4Q)
    (lights : ℕ → V3 ℚ) (sc : SceneM) : List SEvent × List Mat4Q :=
  ((List.range 3).flatMap fun i =>
     (List.range 3).flatMap fun j =>
       (shadowPassLight lookAtF persp lights sc (3 * i + j)).1,
   (List.range 3).flatMap fun i =>
     (List.range 3).map fun j =>
       (shadowPassLight lookAtF persp lights sc (3 * i + j)).2)

/-- The mesh identities of the shadow-casting buckets (opaque and
normal-mapped). -/
def casterIds (sc : SceneM) : List ℕ :=
  (sc.opaques ++ sc.normalMapped).map Batch.id

/-- The total number of instance transforms in the shadow-casting
buckets. -/
def instTotal (sc : SceneM) : ℕ :=
  ((sc.opaques ++ sc.normalMapped).map fun b => b.instances.length).sum

theorem pairwise_le_of_const {α : Type} (g : α → ℕ) (c : ℕ) {l : List α}
    (h : ∀ e ∈ l, g e = c) : l.Pairwise fun a b => g a ≤ g b := by
  induction l with
  | nil => exact List.Pairwise.nil
  | cons a t ih =>
    refine List.Pairwise.cons (fun b hb => ?_)
      (ih fun e he => h e (List.mem_cons_of_mem a he))
    rw [h a (List.mem_cons_self a t), h b (List.mem_cons_of_mem a hb)]

theorem shadowPassLight_length (lookAtF : V3 ℚ → V3 ℚ → V3 ℚ → Mat4Q)
    (persp : Mat4Q) (lights : ℕ → V3 ℚ) (sc : SceneM) (L : ℕ) :
    (shadowPassLight lookAtF persp lights sc L).1.length = instTotal sc := by
  simp only [shadowPassLight, instTotal, List.length_append,
    List.length_flatMap, List.map_append, List.sum_append,
    Function.comp_def, drawMeshShadow, List.length_map]

theorem mem_shadowPassLight (lookAtF : V3 ℚ → V3 ℚ → V3 ℚ → Mat4Q)
    (persp : Mat4Q) (lights : ℕ → V3 ℚ) (sc : SceneM) (L : ℕ) (e : SEvent)
    (he : e ∈ (shadowPassLight lookAtF persp lights sc L).1) :
    ∃ b ∈ sc.opaques ++ sc.normalMapped, ∃ mm ∈ b.instances,
      e = ⟨L, b.id, mm,
        persp * shadowLightView lookAtF (lights L) * mm⟩ := by
  simp only [shadowPassLight, List.mem_append, List.mem_flatMap,
    drawMeshShadow, List.mem_map] at he
  rcases he with ⟨b, hb, mm, hmm, rfl⟩ | ⟨b, hb, mm, hmm, rfl⟩
  · exact ⟨b, List.mem_append_left _ hb, mm, hmm, rfl⟩
  · exact ⟨b, List.mem_append_right _ hb, mm, hmm, rfl⟩

theorem mem_shadowPass (lookAtF : V3 ℚ → V3 ℚ → V3 ℚ → Mat4Q)
    (persp : Mat4Q) (lights : ℕ → V3 ℚ) (sc : SceneM) (e : SEvent)
    (he : e ∈ (shadowPass lookAtF persp lights sc).1) :
    ∃ L < 9, ∃ b ∈ sc.opaques ++ sc.normalMapped, ∃ mm ∈ b.instances,
      e = ⟨L, b.id, mm,
        persp * shadowLightView lookAtF (lights L) * mm⟩ := by
  simp only [shadowPass, List.mem_flatMap, List.mem_range] at he
  obtain ⟨i, hi, j, hj, he⟩ := he
  exact ⟨3 * i + j, by omega,
    mem_shadowPassLight lookAtF persp lights sc (3 * i + j) e he⟩

theorem shadowPass_snd (lookAtF : V3 ℚ → V3 ℚ → V3 ℚ → Mat4Q)
    (persp : Mat4Q) (lights : ℕ → V3 ℚ) (sc : SceneM) :
    (shadowPass lookAtF persp lights sc).2 =
      (List.range 9).map fun L =>
        biasMatrixQ * persp * shadowLightView lookAtF (lights L) := by
  simp [shadowPass, shadowPassLight, List.range_succ]

/-- C1: in every frame's shadow pass, for each light `L = 0..8` taken in
row-major grid order, the engine draws exactly the batches of the opaque
and normal-mapped buckets — one indexed draw per instance, with
`depthMVP = lightProj * lightView * instanceTransform` where
`lightView = lookAt(lightPos, lightPos + (0,-1,0), (0,0,-1))` — and
appends `biasMatrix * lightProj * lightView` as entry `L` of the
depth-bias list, so after the pass that list has exactly 9 entries in the
same stable (nondecreasing-light) order; the transparent bucket and the
light-panel mesh play no part in the pass. -/
theorem shadow_pass_spec (lookAtF : V3 ℚ → V3 ℚ → V3 ℚ → Mat4Q)
    (persp : Mat4Q) (lights : ℕ → V3 ℚ) (sc : SceneM) :
    (shadowPass lookAtF persp lights sc).2.length = 9 ∧
    (∀ L : Fin 9, (shadowPass lookAtF persp lights sc).2.getD L.val 1 =
      biasMatrixQ * persp *
        lookAtF (lights L.val) (lights L.val + ⟨0, -1, 0⟩) ⟨0, 0, -1⟩) ∧
    (shadowPass lookAtF persp lights sc).1.length = 9 * instTotal sc ∧
    ((shadowPass lookAtF persp lights sc).1.all fun e =>
      decide (e.meshId ∈ casterIds sc) && decide (e.light < 9) &&
      decide (e.depthMVP =
        persp * lookAtF (lights e.light) (lights e.light + ⟨0, -1, 0⟩)
          ⟨0, 0, -1⟩ * e.model)) = true ∧
    ((shadowPass lookAtF persp lights sc).1.map SEvent.light).Pairwise
      (· ≤ ·) ∧
    (∀ (t : List Batch) (pl : Batch),
      shadowPass lookAtF persp lights
        { opaques := sc.opaques, normalMapped := sc.normalMapped,
          transparents := t, lightPanel := pl } =
        shadowPass lookAtF persp lights sc) := by
  refine ⟨?_, ?_, ?_, ?_, ?_, fun t pl => rfl⟩
  · rw [shadowPass_snd]
    simp
  · intro L
    rw [shadowPass_snd]
    fin_cases L <;> simp [List.range_succ, shadowLightView]
  · simp [shadowPass, List.range_succ, shadowPassLight_length]
    ring
  · rw [List.all_eq_true]
    intro e he
    obtain ⟨L, hL, b, hb, mm, hmm, rfl⟩ :=
      mem_shadowPass lookAtF persp lights sc e he
    simp only [Bool.and_eq_true, decide_eq_true_eq]
    refine ⟨⟨?_, hL⟩, rfl⟩
    exact List.mem_map.2 ⟨b, hb, rfl⟩
  · rw [List.pairwise_map]
    apply pairwise_flatMap_range
    · intro i
      apply pairwise_flatMap_range
      · intro j
        apply pairwise_le_of_const SEvent.light (3 * i + j)
        intro e he
        obtain ⟨b, _, mm, _, rfl⟩ :=
          mem_shadowPassLight lookAtF persp lights sc (3 * i + j) e he
        rfl
      · intro j j' hjj a ha b hb
        obtain ⟨ba, _, ma, _, rfl⟩ :=
          mem_shadowPassLight lookAtF persp lights sc (3 * i + j) a ha
        obtain ⟨bb, _, mb, _, rfl⟩ :=
          mem_shadowPassLight lookAtF persp lights sc (3 * i + j') b hb
        simp only
        omega
    · intro i i' hii a ha b hb
      rw [List.mem_flatMap] at ha hb
      obtain ⟨j, hj, ha⟩ := ha
      obtain ⟨j', hj', hb⟩ := hb
      obtain ⟨ba, _, ma, _, rfl⟩ :=
        mem_shadowPassLight lookAtF persp lights sc (3 * i + j) a ha
      obtain ⟨bb, _, mb, _, rfl⟩ :=
        mem_shadowPassLight lookAtF persp lights sc (3 * i' + j') b hb
      rw [List.mem_range] at hj hj'
      simp only
      omega

/-! ### The lighting pass (`ClassroomSimulator::MainLoop` PASS 2,
`main.cpp:503-564`, and `DrawMesh`, `main.cpp:694-742`). -/

/-- The blend/depth/material-flag GL state the lighting pass manipulates:
`GL_BLEND`, the depth write mask, and the `bIsGlass` / `bIsUnlit`
uniforms. -/
structure GLS where
  blend : Bool
  depthMask : Bool
  glassFlag : Bool
  unlitFlag : Bool
deriving DecidableEq

/-- The GL state every frame of the steady-state loop starts from: blending
disabled (GL default, re-established at `main.cpp:564`), depth writes
enabled (enabled at init, re-established at `main.cpp:563`), and the glass
and unlit uniforms clear. -/
def glDefaultState : GLS := ⟨false, true, false, false⟩

/-- One indexed draw issued by `DrawMesh` in the lighting pass: the bucket
stage it was issued from (0 opaque, 1 normal-mapped, 2 unlit light panel,
3 transparent), the mesh, the `MVP = Projection * View * modelMatrix`
uniform, the `fragmentAlpha` value, and a snapshot of the GL state the draw
executes under. -/
structure LEvent where
  cat : ℕ
  meshId : ℕ
  mvp : Mat4Q
  alpha : ℚ
  blend : Bool
  depthWrite : Bool
  glassFlag : Bool
  unlitFlag : Bool

/-- `DrawMesh` (`main.cpp:694-742`): one indexed draw per instance
transform with `MVP = Projection * View * modelMatrix`, under the current
GL state. -/
def drawMeshMain (cat : ℕ) (alpha : ℚ) (s : GLS) (view proj : Mat4Q)
    (b : Batch) : List LEvent :=
  b.instances.map fun mm =>
    ⟨cat, b.id, proj * view * mm, alpha, s.blend, s.depthMask, s.glassFlag,
     s.unlitFlag⟩

/-- The lighting pass of one frame (`main.cpp:536-564`), started in GL
state `s0`: clear the unlit uniform (`main.cpp:536`), draw the opaque
bucket, then the normal-mapped bucket, then the light panel with the unlit
flag raised and lowered again (`main.cpp:545-547`), then — with blending
on, depth writes off and the glass flag set (`main.cpp:550-557`) — the
transparent bucket with `fragmentAlpha = 0.25`, and finally reset the
glass flag, depth mask and blending (`main.cpp:562-564`). -/
def lightingPass (view proj : Mat4Q) (sc : SceneM) (s0 : GLS) :
    List LEvent × GLS :=
  let s1 : GLS := { s0 with unlitFlag := false }
  let e1 := sc.opaques.flatMap (drawMeshMain 0 1 s1 view proj)
  let e2 := sc.normalMapped.flatMap (drawMeshMain 1 1 s1 view proj)
  let s2 : GLS := { s1 with unlitFlag := true }
  let e3 := drawMeshMain 2 1 s2 view proj sc.lightPanel
  let s3 : GLS := { s2 with unlitFlag := false }
  let s4 : GLS := { s3 with blend := true, depthMask := false,
                            glassFlag := true }
  let e4 := sc.transparents.flatMap (drawMeshMain 3 (25/100) s4 view proj)
  let s5 : GLS := { s4 with glassFlag := false, depthMask := true,
                            blend := false }
  (e1 ++ e2 ++ e3 ++ e4, s5)

/-- The total number of indexed draws one lighting pass issues. -/
def drawTotal (sc : SceneM) : ℕ :=
  instTotal sc + sc.lightPanel.instances.length +
    (sc.transparents.map fun b => b.instances.length).sum

theorem lightingPass_final (view proj : Mat4Q) (sc : SceneM) (s0 : GLS) :
    (lightingPass view proj sc s0).2 = glDefaultState := rfl

theorem mem_drawMeshMain_flatMap (cat : ℕ) (alpha : ℚ) (s : GLS)
    (view proj : Mat4Q) (l : List Batch) (e : LEvent)
    (he : e ∈ l.flatMap (drawMeshMain cat alpha s view proj)) :
    e.cat = cat ∧ e.blend = s.blend ∧ e.depthWrite = s.depthMask ∧
      e.glassFlag = s.glassFlag ∧ e.unlitFlag = s.unlitFlag := by
  rw [List.mem_flatMap] at he
  obtain ⟨b, _, he⟩ := he
  rw [drawMeshMain, List.mem_map] at he
  obtain ⟨mm, _, rfl⟩ := he
  exact ⟨rfl, rfl, rfl, rfl, rfl⟩

theorem mem_drawMeshMain (cat : ℕ) (alpha : ℚ) (s : GLS)
    (view proj : Mat4Q) (b : Batch) (e : LEvent)
    (he : e ∈ drawMeshMain cat alpha s view proj b) :
    e.cat = cat ∧ e.blend = s.blend ∧ e.depthWrite = s.depthMask ∧
      e.glassFlag = s.glassFlag ∧ e.unlitFlag = s.unlitFlag := by
  rw [drawMeshMain, List.mem_map] at he
  obtain ⟨mm, _, rfl⟩ := he
  exact ⟨rfl, rfl, rfl, rfl, rfl⟩

theorem pairwise_cat_append (c1 c2 : ℕ) {l1 l2 : List LEvent}
    (h1 : ∀ e ∈ l1, e.cat ≤ c1) (h2 : ∀ e ∈ l2, c2 ≤ e.cat)
    (hc : c1 ≤ c2)
    (p1 : l1.Pairwise fun a b => a.cat ≤ b.cat)
    (p2 : l2.Pairwise fun a b => a.cat ≤ b.cat) :
    (l1 ++ l2).Pairwise fun a b => a.cat ≤ b.cat := by
  rw [List.pairwise_append]
  exact ⟨p1, p2, fun a ha b hb => le_trans (h1 a ha)
    (le_trans hc (h2 b hb))⟩

/-- C2: within every frame of the lighting pass, all opaque-bucket draws
come before all normal-mapped-bucket draws, which come before the unlit
light-panel draws, which come before all transparent-bucket draws; every
transparent draw runs with blending enabled, depth writes disabled and the
glass flag set; and the depth-write, blend and glass state are restored to
the frame-start state (blend off, depth writes on, glass clear) before the
frame ends, so the next frame's pass — whatever its camera matrices and
scene — behaves exactly as if started from that state. -/
theorem lighting_pass_order_and_state (view proj : Mat4Q) (sc : SceneM)
    (s0 : GLS) :
    ((lightingPass view proj sc s0).1.map LEvent.cat).Pairwise (· ≤ ·) ∧
    ((lightingPass view proj sc s0).1.all fun e =>
      !(e.cat == 3) || (e.blend && !e.depthWrite && e.glassFlag)) = true ∧
    (lightingPass view proj sc s0).2 = glDefaultState ∧
    (∀ (view2 proj2 : Mat4Q) (sc2 : SceneM),
      lightingPass view2 proj2 sc2 ((lightingPass view proj sc s0).2) =
        lightingPass view2 proj2 sc2 glDefaultState) ∧
    (lightingPass view proj sc s0).1.length = drawTotal sc := by
  refine ⟨?_, ?_, rfl, fun view2 proj2 sc2 => rfl, ?_⟩
  · rw [List.pairwise_map]
    simp only [lightingPass]
    refine pairwise_cat_append 2 3 ?_ ?_ (by omega) ?_ ?_
    · intro e he
      rcases List.mem_append.1 he with he | he
      · rcases List.mem_append.1 he with he | he
        · rw [(mem_drawMeshMain_flatMap _ _ _ _ _ _ e he).1]; omega
        · rw [(mem_drawMeshMain_flatMap _ _ _ _ _ _ e he).1]; omega
      · rw [(mem_drawMeshMain _ _ _ _ _ _ e he).1]
    · intro e he
      rw [(mem_drawMeshMain_flatMap _ _ _ _ _ _ e he).1]
    · refine pairwise_cat_append 1 2 ?_ ?_ (by omega) ?_ ?_
      · intro e he
        rcases List.mem_append.1 he with he | he
        · rw [(mem_drawMeshMain_flatMap _ _ _ _ _ _ e he).1]; omega
        · rw [(mem_drawMeshMain_flatMap _ _ _ _ _ _ e he).1]
      · intro e he
        rw [(mem_drawMeshMain _ _ _ _ _ _ e he).1]
      · refine pairwise_cat_append 0 1 ?_ ?_ (by omega)
          ?_ ?_
        · intro e he
          rw [(mem_drawMeshMain_flatMap _ _ _ _ _ _ e he).1]
        · intro e he
          rw [(mem_drawMeshMain_flatMap _ _ _ _ _ _ e he).1]
        · exact pairwise_le_of_const LEvent.cat 0
            fun e he => (mem_drawMeshMain_flatMap _ _ _ _ _ _ e he).1
        · exact pairwise_le_of_const LEvent.cat 1
            fun e he => (mem_drawMeshMain_flatMap _ _ _ _ _ _ e he).1
      · exact pairwise_le_of_const LEvent.cat 2
          fun e he => (mem_drawMeshMain _ _ _ _ _ _ e he).1
    · exact pairwise_le_of_const LEvent.cat 3
        fun e he => (mem_drawMeshMain_flatMap _ _ _ _ _ _ e he).1
  · rw [List.all_eq_true]
    simp only [lightingPass]
    intro e he
    rcases List.mem_append.1 he with he | he
    · rcases List.mem_append.1 he with he | he
      · rcases List.mem_append.1 he with he | he
        · have hc := (mem_drawMeshMain_flatMap _ _ _ _ _ _ e he).1
          simp [hc]
        · have hc := (mem_drawMeshMain_flatMap _ _ _ _ _ _ e he).1
          simp [hc]
      · have hc := (mem_drawMeshMain _ _ _ _ _ _ e he).1
        simp [hc]
    · obtain ⟨hc, hb, hd, hg, _⟩ := mem_drawMeshMain_flatMap _ _ _ _ _ _ e he
      simp only at hb hd hg
      simp [hc, hb, hd, hg]
  · simp only [lightingPass, drawTotal, instTotal, List.length_append,
      List.length_flatMap, Function.comp_def, drawMeshMain,
      List.length_map, List.map_append, List.sum_append]

end Classroom
